import Mathlib

/-!
Shallow embedding of `hadroid/botctl.py` (the dispatch core of the hadroid
chat-bot controller) and proofs about its prefix recognition, tokenization,
dispatch, stream-listening and cron-scheduling logic.

External collaborators (the Gitter transport, the bot grammar parser
`docopt_parse`, the bot entry point `bot_main`, the schedule store `CronBook`
and the configuration object `C`) are modelled as parameters, exactly as the
dispatch core observes them.  Python `str`/`shlex`/`timedelta` primitives used
by the source are modelled character-for-character below (Unicode whitespace
beyond the ASCII range is not modelled; all inputs considered here are ASCII).
-/

/-! ### Python string primitives -/

/-- Whitespace set of Python `str.split()` / `str.strip()` (ASCII part). -/
def pyIsSpace (c : Char) : Bool :=
  c == ' ' || c == '\t' || c == '\n' || c == '\r' || c == '\x0b' || c == '\x0c'

/-- `a.startswith(b)` on code points, as a plain recursion on char lists. -/
def startsWithL : List Char → List Char → Bool
  | [], _ => true
  | _ :: _, [] => false
  | p :: ps, c :: cs => p == c && startsWithL ps cs

/-- Python `text.startswith(pat)`. -/
def pyStartsWith (s pat : String) : Bool :=
  startsWithL pat.data s.data

/-- Python `text.lstrip(chars)`: drops every leading character that occurs
anywhere in `chars` (a character-set trim, not literal-prefix removal). -/
def pyLstrip (s chars : String) : String :=
  ⟨s.data.dropWhile (fun c => chars.data.contains c)⟩

/-- Python `text.strip()` (ASCII whitespace model). -/
def pyStrip (s : String) : String :=
  ⟨((s.data.dropWhile pyIsSpace).reverse.dropWhile pyIsSpace).reverse⟩

/-- Helper for `str.split()`: accumulates the current token. -/
def pySplitAux : List Char → List Char → List (List Char)
  | [], tok => if tok = [] then [] else [tok]
  | c :: cs, tok =>
    if pyIsSpace c then
      if tok = [] then pySplitAux cs [] else tok :: pySplitAux cs []
    else
      pySplitAux cs (tok ++ [c])

/-- Python `cmd.split()`: split on whitespace runs, discarding empties. -/
def pySplit (s : String) : List String :=
  (pySplitAux s.data []).map (fun t => ⟨t⟩)

/-- Python `cmd.replace('``', '"')` specialised to the literal arguments used
at the single call site: a left-to-right, non-overlapping scan replacing each
backtick pair by one double quote. -/
def btReplace : List Char → List Char
  | [] => []
  | [c] => [c]
  | c :: d :: cs =>
    if c = '`' ∧ d = '`' then '"' :: btReplace cs
    else c :: btReplace (d :: cs)

/-- String-level wrapper for `cmd.replace('``', '"')`. -/
def btReplaceStr (s : String) : String :=
  ⟨btReplace s.data⟩

/-! ### Python `shlex.split` (posix mode, `whitespace_split=True`, no
comment characters — the exact configuration of `shlex.split(s)`).

The scanner states mirror `shlex.read_token`: `ws` is the inter-token
state `' '`, `word` is the in-token state `'a'`, `squote`/`dquote` are the
two quote states, and `escWord`/`escDquote` are the escape state together
with its saved `escapedstate`.  The `quoted` flag makes a token that was
(possibly emptily) quoted emittable even when its text is empty. -/

inductive ShMode where
  | ws | word | squote | dquote | escWord | escDquote
deriving DecidableEq, Repr

/-- `shlex.whitespace`. -/
def shWSb (c : Char) : Bool :=
  c == ' ' || c == '\t' || c == '\r' || c == '\n'

/-- The `shlex` token scanner.  Arguments: remaining input, state, current
token, `quoted` flag.  Returns the token list or the `ValueError` message. -/
def shlexAux : List Char → ShMode → List Char → Bool →
    Except String (List (List Char))
  | [], .ws, _, _ => .ok []
  | [], .word, tok, quoted =>
    if tok = [] ∧ quoted = false then .ok [] else .ok [tok]
  | [], .squote, _, _ => .error "No closing quotation"
  | [], .dquote, _, _ => .error "No closing quotation"
  | [], .escWord, _, _ => .error "No escaped character"
  | [], .escDquote, _, _ => .error "No escaped character"
  | c :: cs, .ws, tok, quoted =>
    if shWSb c then shlexAux cs .ws tok quoted
    else if c = '\'' then shlexAux cs .squote tok true
    else if c = '"' then shlexAux cs .dquote tok true
    else if c = '\\' then shlexAux cs .escWord tok quoted
    else shlexAux cs .word (tok ++ [c]) quoted
  | c :: cs, .word, tok, quoted =>
    if shWSb c then
      if tok = [] ∧ quoted = false then shlexAux cs .ws [] false
      else (shlexAux cs .ws [] false).map (fun ts => tok :: ts)
    else if c = '\'' then shlexAux cs .squote tok true
    else if c = '"' then shlexAux cs .dquote tok true
    else if c = '\\' then shlexAux cs .escWord tok quoted
    else shlexAux cs .word (tok ++ [c]) quoted
  | c :: cs, .squote, tok, quoted =>
    if c = '\'' then shlexAux cs .word tok quoted
    else shlexAux cs .squote (tok ++ [c]) quoted
  | c :: cs, .dquote, tok, quoted =>
    if c = '"' then shlexAux cs .word tok quoted
    else if c = '\\' then shlexAux cs .escDquote tok quoted
    else shlexAux cs .dquote (tok ++ [c]) quoted
  | c :: cs, .escWord, tok, quoted =>
    shlexAux cs .word (tok ++ [c]) quoted
  | c :: cs, .escDquote, tok, quoted =>
    if c = '\\' ∨ c = '"' then shlexAux cs .dquote (tok ++ [c]) quoted
    else shlexAux cs .dquote (tok ++ ['\\', c]) quoted

/-- `shlex.split` on a char list. -/
def shlexSplitL (l : List Char) : Except String (List (List Char)) :=
  shlexAux l .ws [] false

/-- Python `shlex.split(s)`. -/
def shlexSplit (s : String) : Except String (List String) :=
  (shlexSplitL s.data).map (List.map (fun t => ⟨t⟩))

/-! ### Python `datetime.timedelta` (the attributes `botctl` touches).

A timedelta is represented by its exact total length in microseconds.
Python normalises to `days`, `seconds ∈ [0, 86400)`, `microseconds ∈ [0, 10^6)`
with `days` the floor; `.seconds` is the (always non-negative) seconds
component of that normal form, not the total duration. -/

/-- `timedelta.days` of a duration given in total microseconds. -/
def tdDays (us : Int) : Int :=
  Int.fdiv us 86400000000

/-- `timedelta.seconds` (the normalized seconds component). -/
def tdSecondsAttr (us : Int) : Int :=
  Int.fdiv (us - tdDays us * 86400000000) 1000000

deriving instance DecidableEq for Except

/-! ### Data model of the dispatch core -/

/-- Python exceptions as the dispatch core distinguishes them:
`docoptExit` is `docopt.DocoptExit` (carrying `str(e)`, the usage message);
`other` is every other exception raised inside the dispatch path (bot logic
failures, `shlex` `ValueError`s, decode/JSON errors, ...). -/
inductive PyExn where
  | docoptExit (usage : String)
  | other (msg : String)
deriving DecidableEq, Repr

/-- One `client.send(msg, room_id, block)` call as observed by the channel:
`roomId = none` models calling `send` without an explicit `room_id`. -/
structure SendCall where
  text : String
  roomId : Option String
  block : Bool
deriving DecidableEq, Repr

/-- The fields of the chat-event JSON (`msg_json`) that `botctl` reads,
plus the `room` field of the spec's ChatEvent (never read by the code). -/
structure MsgJson where
  text : String
  fromUsername : String
  room : String
deriving DecidableEq, Repr

/-- The external configuration object `C`: `C.BOT_NAME` and `C.CMD_PREFIX`
(the declared-order list of recognized bot-mention markers). -/
structure Config where
  botName : String
  cmdMarkers : List String
deriving DecidableEq, Repr

/-- The tuple returned by the schedule store's `CronBook.get_next()`:
`(dt, idx, time, cmd)`, with the timedelta `dt` as total microseconds.
The `idx`/`timeUs` fields are opaque to the dispatch core. -/
structure CronEventT where
  dtUs : Int
  idx : Nat
  timeUs : Int
  cmd : String
deriving DecidableEq, Repr

/-! ### GitterClient.send -/

/-- The room a `GitterClient.send` call posts to: the Python expression
`room_id or self.default_room_id` (`None` or an empty string falls back to
the client's configured default room). -/
def sendEffectiveRoom (defaultRoomId : Option String) (roomId : Option String) :
    Option String :=
  match roomId with
  | some r => if r = "" then defaultRoomId else some r
  | none => defaultRoomId

/-- The message body `GitterClient.send` posts (`msg_fmt.format(msg=msg)`). -/
def gitterSendText (msg : String) (block : Bool) : String :=
  if block then "```text\n" ++ msg ++ "\n```" else msg

/-! ### StreamClient / CronClient dispatch

The bot-grammar collaborator is passed in as `parse` (modelling
`docopt_parse(bot_doc, argv=...)`, which raises `DocoptExit` on a usage
error) and `main` (modelling `bot_main(self, args, msg_json)`, whose
side effects are the `send` calls it performs and which may raise).
`Args` is the opaque type of parsed-argument structures. -/

/-- The tokenization performed by `StreamClient.respond`:
`shlex.split(cmd.replace('``', '"'))`.  The `ValueError` a `shlex` failure
raises is the `String` error. -/
def streamTokenize (cmd : String) : Except String (List String) :=
  shlexSplit (btReplaceStr cmd)

/-- The tokenization performed by `CronClient.respond`: `cmd.split()`. -/
def cronTokenize (cmd : String) : List String :=
  pySplit cmd

/-- The single reply both `respond` methods send on a `DocoptExit`:
`self.send("```text\n{0}```".format(str(e)))` — positional argument only,
so no explicit room and `block=False`. -/
def usageReply (usage : String) : SendCall :=
  ⟨"```text\n" ++ usage ++ "```", none, false⟩

/-- `StreamClient.respond(cmd, msg_json)`.  The `try` block covers
tokenization, grammar parsing and the bot entry point; only `DocoptExit`
is caught and turned into the single usage reply.  The result collects the
`send` calls performed, or the uncaught exception. -/
def streamRespond {Args : Type} (parse : List String → Except PyExn Args)
    (main : Args → MsgJson → Except PyExn (List SendCall))
    (cmd : String) (msg : MsgJson) : Except PyExn (List SendCall) :=
  let attempt : Except PyExn (List SendCall) :=
    match streamTokenize cmd with
    | .error m => .error (.other m)
    | .ok argv =>
      match parse argv with
      | .error e => .error e
      | .ok args => main args msg
  match attempt with
  | .error (.docoptExit u) => .ok [usageReply u]
  | .error e => .error e
  | .ok sends => .ok sends

/-- `CronClient.respond(cmd, msg_json)`: identical except-handling, but the
argument vector is `cmd.split()` (plain whitespace split, which never
raises). -/
def cronRespond {Args : Type} (parse : List String → Except PyExn Args)
    (main : Args → MsgJson → Except PyExn (List SendCall))
    (cmd : String) (msg : MsgJson) : Except PyExn (List SendCall) :=
  let attempt : Except PyExn (List SendCall) :=
    match parse (cronTokenize cmd) with
    | .error e => .error e
    | .ok args => main args msg
  match attempt with
  | .error (.docoptExit u) => .ok [usageReply u]
  | .error e => .error e
  | .ok sends => .ok sends

/-! ### StreamClient.parse_message -/

/-- `next(p for p in C.CMD_PREFIX if text.startswith(p))`: the first marker
in declared order that begins the text (`none` models the `StopIteration`
path). -/
def findMarker (markers : List String) (text : String) : Option String :=
  markers.find? (fun p => pyStartsWith text p)

/-- The text handed on to `respond` when a marker matches:
`text.lstrip(prefix).strip()`. -/
def strippedCmd (markers : List String) (text : String) : Option String :=
  (findMarker markers text).map (fun p => pyStrip (pyLstrip text p))

/-- `StreamClient.parse_message(msg_json)`: drop self-authored messages,
drop texts that start with no recognized marker, otherwise dispatch the
stripped remainder through `respond`.  `.ok []` is the no-op return. -/
def parse_message {Args : Type} (cfg : Config)
    (parse : List String → Except PyExn Args)
    (main : Args → MsgJson → Except PyExn (List SendCall))
    (msg : MsgJson) : Except PyExn (List SendCall) :=
  if msg.fromUsername = cfg.botName then .ok []
  else
    match strippedCmd cfg.cmdMarkers msg.text with
    | none => .ok []
    | some cmd => streamRespond parse main cmd msg

/-! ### StreamClient.listen (per-line body) -/

/-- Outcome of one iteration of the `for line in r.iter_lines()` body.
Every constructor continues the loop: `skipped` is the `len(line) <= 1`
filter, `ok` a processed line with the sends it caused, and `caught` the
`except Exception` arm (the exception is printed and the loop goes on). -/
inductive LineOutcome where
  | skipped
  | ok (sends : List SendCall)
  | caught (e : PyExn)
deriving DecidableEq, Repr

/-- The per-line body of `StreamClient.listen`.  `decodeLine` models
`line.decode('utf8')` and `parseJson` models `json.loads`; both are external
and may raise.  The `try` block wraps decode, JSON parsing and
`parse_message`; `except Exception` catches whatever they raise. -/
def processLine {Args : Type} (cfg : Config)
    (parse : List String → Except PyExn Args)
    (main : Args → MsgJson → Except PyExn (List SendCall))
    (decodeLine : List Nat → Except PyExn String)
    (parseJson : String → Except PyExn MsgJson)
    (line : List Nat) : LineOutcome :=
  if line ≠ [] ∧ 1 < line.length then
    match decodeLine line with
    | .error e => .caught e
    | .ok s =>
      match parseJson s with
      | .error e => .caught e
      | .ok msg =>
        match parse_message cfg parse main msg with
        | .error e => .caught e
        | .ok sends => .ok sends
  else .skipped

/-! ### CronClient.listen (one iteration) -/

/-- What one iteration of `CronClient.listen` decides to do, given the
schedule store's `get_next()` result. -/
inductive CronAction where
  | fireAfter (sleepSecs : Int) (cmd : String)
  | pollAgain (sleepSecs : Int)
deriving DecidableEq, Repr

/-- One iteration of `CronClient.listen`: if an event exists and its
timedelta is `< timedelta(seconds=30)`, `sleep(ce.dt.seconds)` then
dispatch its command; otherwise `sleep(20)` and re-poll. -/
def cronIterationPlan (nextEvent : Option CronEventT) : CronAction :=
  match nextEvent with
  | some e =>
    if e.dtUs < 30 * 1000000 then .fireAfter (tdSecondsAttr e.dtUs) e.cmd
    else .pollAgain 20
  | none => .pollAgain 20

/-! ### Validation of the stdlib models

Each equation below was checked against CPython 3 (`shlex.split`,
`str.replace`, `str.split`, `str.lstrip`, `datetime.timedelta`). -/

example : shlexSplit "help" = .ok ["help"] := by decide
example : shlexSplit "a \"b c\" d" = .ok ["a", "b c", "d"] := by decide
example : shlexSplit "\"\" x" = .ok ["", "x"] := by decide
example : shlexSplit "don't" = .error "No closing quotation" := by decide
example : shlexSplit "x\\" = .error "No escaped character" := by decide
example : shlexSplit "\"a\\nb\"" = .ok ["a\\nb"] := by decide
example : shlexSplit "\"a\\\"b\"" = .ok ["a\"b"] := by decide
example : shlexSplit "a\"b\"c" = .ok ["abc"] := by decide
example : btReplaceStr "``a`````" = "\"a\"\"`" := by decide
example : pyLstrip "!bot ot hi" "!bot " = "hi" := by decide
example : pySplit "echo ``a b``" = ["echo", "``a", "b``"] := by decide
example : tdSecondsAttr (-5000000) = 86395 := by decide
example : tdSecondsAttr 10500000 = 10 := by decide

/-! ### Helper lemmas -/

/-- A character of a plain (quote-free) command word: printable ASCII above
space that is neither a `shlex`-special character (`'`, `"`, `\`) nor a
backtick (significant to the pre-tokenization replacement). -/
def plainTok (c : Char) : Prop :=
  32 < c.toNat ∧ c.toNat < 127 ∧ c ∉ ['\'', '"', '\\', '`']

instance : DecidablePred plainTok := fun c => by
  unfold plainTok; infer_instance

theorem plainTok_facts {c : Char} (h : plainTok c) :
    shWSb c = false ∧ pyIsSpace c = false ∧
    c ≠ '\'' ∧ c ≠ '"' ∧ c ≠ '\\' ∧ c ≠ '`' := by
  obtain ⟨h1, h2, h3⟩ := h
  simp only [List.mem_cons, List.not_mem_nil, or_false, not_or] at h3
  obtain ⟨n1, n2, n3, n4⟩ := h3
  have hlow : ∀ d : Char, d.toNat ≤ 32 → c ≠ d := by
    intro d hd hc
    subst hc
    omega
  refine ⟨?_, ?_, n1, n2, n3, n4⟩
  · simp [shWSb, hlow ' ' (by decide), hlow '\t' (by decide),
      hlow '\r' (by decide), hlow '\n' (by decide)]
  · simp [pyIsSpace, hlow ' ' (by decide), hlow '\t' (by decide),
      hlow '\n' (by decide), hlow '\r' (by decide),
      hlow '\x0b' (by decide), hlow '\x0c' (by decide)]

/-- `btReplace` leaves a backtick-free string unchanged. -/
theorem btReplace_id : ∀ (l : List Char), (∀ c ∈ l, c ≠ '`') → btReplace l = l
  | [], _ => rfl
  | [_], _ => rfl
  | c :: d :: cs, h => by
    have hc : c ≠ '`' := h c (by simp)
    simp only [btReplace, if_neg (fun hh : c = '`' ∧ d = '`' => hc hh.1)]
    rw [btReplace_id (d :: cs) (fun x hx => h x (by simp [hx]))]

/-- Appending a backtick pair to a backtick-free string replaces exactly that
pair. -/
theorem btReplace_append_pair (p : List Char) (h : ∀ c ∈ p, c ≠ '`') :
    btReplace (p ++ ['`', '`']) = p ++ ['"'] := by
  induction p with
  | nil => rfl
  | cons c cs ih =>
    have hc : c ≠ '`' := h c (by simp)
    have hcs : ∀ x ∈ cs, x ≠ '`' := fun x hx => h x (by simp [hx])
    cases cs with
    | nil => simp [btReplace, hc]
    | cons d ds =>
      simp only [List.cons_append, btReplace,
        if_neg (fun hh : c = '`' ∧ d = '`' => hc hh.1), List.append_eq]
      have ih2 := ih hcs
      simp only [List.cons_append] at ih2
      rw [ih2]

/-- Inside a double quote, every character other than `"` and `\` is copied
verbatim until the closing quote. -/
theorem shlex_dquote_run (p : List Char) (h : ∀ c ∈ p, c ≠ '"' ∧ c ≠ '\\') :
    ∀ (rest tok : List Char) (q : Bool),
      shlexAux (p ++ '"' :: rest) .dquote tok q =
        shlexAux rest .word (tok ++ p) q := by
  induction p with
  | nil => intro rest tok q; simp [shlexAux]
  | cons c cs ih =>
    intro rest tok q
    obtain ⟨h1, h2⟩ := h c (by simp)
    simp only [List.cons_append, shlexAux, if_neg h1, if_neg h2, List.append_eq]
    rw [ih (fun x hx => h x (by simp [hx])) rest (tok ++ [c]) q]
    simp

/-- On plain space-separated input, the `shlex` scanner and Python's
whitespace `str.split` produce the same tokens. -/
theorem shlex_plain_agree (l : List Char)
    (h : ∀ c ∈ l, c = ' ' ∨ plainTok c) :
    shlexAux l .ws [] false = .ok (pySplitAux l []) ∧
    ∀ (tok : List Char) (q : Bool), tok ≠ [] →
      shlexAux l .word tok q = .ok (pySplitAux l tok) := by
  induction l with
  | nil =>
    refine ⟨rfl, ?_⟩
    intro tok q htok
    simp [shlexAux, pySplitAux, htok]
  | cons c cs ih =>
    have hc : c = ' ' ∨ plainTok c := h c (by simp)
    have hcs : ∀ x ∈ cs, x = ' ' ∨ plainTok x := fun x hx => h x (by simp [hx])
    have IH := ih hcs
    rcases hc with rfl | hp
    · constructor
      · simp only [shlexAux, pySplitAux]
        simp only [show shWSb ' ' = true from rfl, show pyIsSpace ' ' = true from rfl,
          if_true]
        simpa using IH.1
      · intro tok q htok
        simp only [shlexAux, pySplitAux]
        simp only [show shWSb ' ' = true from rfl, show pyIsSpace ' ' = true from rfl,
          if_true, if_neg (fun hh : tok = [] ∧ q = false => htok hh.1),
          if_neg htok]
        rw [IH.1]
        simp [Except.map]
    · obtain ⟨hws, hsp, hq, hd, hb, -⟩ := plainTok_facts hp
      constructor
      · simp only [shlexAux, pySplitAux, hws, hsp, if_neg hq, if_neg hd, if_neg hb,
          Bool.false_eq_true, if_false, List.nil_append]
        exact IH.2 [c] false (by simp)
      · intro tok q htok
        simp only [shlexAux, pySplitAux, hws, hsp, if_neg hq, if_neg hd, if_neg hb,
          Bool.false_eq_true, if_false]
        exact IH.2 (tok ++ [c]) q (by simp)

/-! ### Claims -/

/-- **C1.** The claim says the text handed to tokenization is the original
text with the one matched marker removed as a literal leading substring
(plus whitespace stripping).  The code instead computes
`text.lstrip(prefix).strip()`, and Python `lstrip` trims every leading
character drawn from the marker's character set.  At the failing input
below (markers as in the spec's example configuration, message
`"!bot ot hi"`), the code hands `"hi"` to tokenization, while literal
removal of the matched marker `"!bot "` followed by `strip` yields
`"ot hi"`. -/
theorem c1_lstrip_charset_trim :
    strippedCmd ["/bot ", "!bot "] "!bot ot hi" = some "hi" ∧
    pyStrip ⟨("!bot ot hi").data.drop ("!bot ").data.length⟩ = "ot hi" ∧
    ("hi" : String) ≠ "ot hi" := by
  refine ⟨by decide, by decide, by decide⟩

/-- **C4.** The claim says the cron loop sleeps for exactly the remaining
duration whenever it is below 30 seconds, including zero or already-passed
due times.  The code sleeps `ce.dt.seconds`, the *normalized seconds
component* of the timedelta: for a due time already passed by 5 seconds it
sleeps 86395 seconds (almost a day), and for 10.5 seconds remaining it
sleeps 10 seconds.  The ≥ 30 s / no-event branches do sleep 20 s without
dispatching, as claimed. -/
theorem c4_cron_sleep_seconds_component :
    cronIterationPlan (some ⟨-5000000, 0, 0, "ping"⟩) =
      .fireAfter 86395 "ping" ∧
    cronIterationPlan (some ⟨10500000, 1, 0, "menu today"⟩) =
      .fireAfter 10 "menu today" ∧
    cronIterationPlan (some ⟨45000000, 2, 0, "ping"⟩) = .pollAgain 20 ∧
    cronIterationPlan none = .pollAgain 20 := by
  refine ⟨by decide, by decide, by decide, by decide⟩

/-- **C3 (counterexample).** The claim says Cron dispatch and Stream
dispatch tokenize every command string identically, both with shell-style
quoting and backtick substitution.  `CronClient.respond` actually uses
plain `cmd.split()`: on `"echo ``a b``"` the stream tokenizer yields
`["echo", "a b"]` while the cron tokenizer yields `["echo", "``a", "b``"]`. -/
theorem c3_tokenizers_differ :
    streamTokenize "echo ``a b``" = .ok ["echo", "a b"] ∧
    cronTokenize "echo ``a b``" = ["echo", "``a", "b``"] ∧
    streamTokenize "echo ``a b``" ≠ .ok (cronTokenize "echo ``a b``") := by
  refine ⟨by decide, by decide, by decide⟩

/-- **C3 (amended).** On plain command strings — tokens of printable
ASCII free of quote, backslash and backtick characters, separated by
spaces — the two dispatchers' tokenizations do agree. -/
theorem c3_plain_tokenize_agree (cmd : String)
    (h : ∀ c ∈ cmd.data, c = ' ' ∨ plainTok c) :
    streamTokenize cmd = .ok (cronTokenize cmd) := by
  have hbt : ∀ c ∈ cmd.data, c ≠ '`' := by
    intro c hc
    rcases h c hc with rfl | hp
    · decide
    · exact (plainTok_facts hp).2.2.2.2.2
  unfold streamTokenize cronTokenize btReplaceStr shlexSplit shlexSplitL pySplit
  rw [show (⟨btReplace cmd.data⟩ : String).data = btReplace cmd.data from rfl]
  rw [btReplace_id cmd.data hbt]
  rw [(shlex_plain_agree cmd.data h).1]
  rfl

/-- Witness for `c3_plain_tokenize_agree` at `"menu today"`. -/
theorem c3_plain_tokenize_agree_witness :
    streamTokenize "menu today" = .ok (cronTokenize "menu today") :=
  c3_plain_tokenize_agree "menu today" (by decide)

/-- **C8 (counterexample).** The claim quantifies over every phrase, but
for the phrase backslash-backtick the two sides differ: the
backtick-surrounded remainder raises `ValueError: No closing quotation`,
while the double-quote-surrounded remainder tokenizes to that single
argument. -/
theorem c8_backtick_phrase_differs :
    streamTokenize ("``" ++ "\\`" ++ "``") = .error "No closing quotation" ∧
    streamTokenize ("\"" ++ "\\`" ++ "\"") = .ok ["\\`"] ∧
    streamTokenize ("``" ++ "\\`" ++ "``") ≠
      streamTokenize ("\"" ++ "\\`" ++ "\"") := by
  refine ⟨by decide, by decide, by decide⟩

/-- **C8 (amended).** For every phrase containing no backtick, surrounding
it with backtick pairs tokenizes exactly as surrounding it with literal
double quotes; if the phrase moreover contains no double quote and no
backslash, it becomes a single argument. -/
theorem c8_backtick_pair_quoting (p : String)
    (hbt : ∀ c ∈ p.data, c ≠ '`') :
    streamTokenize ("``" ++ p ++ "``") = streamTokenize ("\"" ++ p ++ "\"") ∧
    ((∀ c ∈ p.data, c ≠ '"' ∧ c ≠ '\\') →
      streamTokenize ("\"" ++ p ++ "\"") = .ok [p]) := by
  have hdata1 : ("``" ++ p ++ "``").data = '`' :: '`' :: (p.data ++ ['`', '`']) := by
    simp [String.data_append]
  have hdata2 : ("\"" ++ p ++ "\"").data = '"' :: (p.data ++ ['"']) := by
    simp [String.data_append]
  have hq1 : btReplace (("``" ++ p ++ "``").data) = '"' :: (p.data ++ ['"']) := by
    rw [hdata1]
    rw [show btReplace ('`' :: '`' :: (p.data ++ ['`', '`'])) =
        '"' :: btReplace (p.data ++ ['`', '`']) from by simp [btReplace]]
    rw [btReplace_append_pair p.data hbt]
  have hq2 : btReplace (("\"" ++ p ++ "\"").data) = '"' :: (p.data ++ ['"']) := by
    rw [hdata2]
    refine btReplace_id _ ?_
    intro c hc
    simp only [List.mem_cons, List.mem_append, List.not_mem_nil, or_false] at hc
    rcases hc with rfl | hc | rfl
    · decide
    · exact hbt c hc
    · decide
  constructor
  · unfold streamTokenize btReplaceStr shlexSplit
    rw [show (⟨btReplace ("``" ++ p ++ "``").data⟩ : String).data =
        btReplace ("``" ++ p ++ "``").data from rfl]
    rw [show (⟨btReplace ("\"" ++ p ++ "\"").data⟩ : String).data =
        btReplace ("\"" ++ p ++ "\"").data from rfl]
    rw [hq1, hq2]
  · intro hplain
    unfold streamTokenize btReplaceStr shlexSplit shlexSplitL
    rw [show (⟨btReplace ("\"" ++ p ++ "\"").data⟩ : String).data =
        btReplace ("\"" ++ p ++ "\"").data from rfl]
    rw [hq2]
    rw [show shlexAux ('"' :: (p.data ++ ['"'])) .ws [] false =
        shlexAux (p.data ++ '"' :: []) .dquote [] true from rfl]
    rw [shlex_dquote_run p.data hplain [] [] true]
    obtain ⟨pd⟩ := p
    simp [shlexAux, Except.map]

/-- Witness for `c8_backtick_pair_quoting` at the phrase `"a b"`. -/
theorem c8_backtick_pair_quoting_witness :
    streamTokenize ("``" ++ "a b" ++ "``") =
      streamTokenize ("\"" ++ "a b" ++ "\"") ∧
    streamTokenize ("\"" ++ "a b" ++ "\"") = .ok ["a b"] :=
  ⟨(c8_backtick_pair_quoting "a b" (by decide)).1,
   (c8_backtick_pair_quoting "a b" (by decide)).2 (by decide)⟩

/-- **C6.** A message whose text starts with none of the recognized
markers is a dispatch no-op: `parse_message` returns with no send and no
error, and — since the conclusion holds for every `parse` and `main` —
without ever invoking the grammar parser or the bot entry point. -/
theorem c6_no_marker_noop {Args : Type} (cfg : Config)
    (parse : List String → Except PyExn Args)
    (main : Args → MsgJson → Except PyExn (List SendCall))
    (msg : MsgJson)
    (h : ∀ p ∈ cfg.cmdMarkers, pyStartsWith msg.text p = false) :
    parse_message cfg parse main msg = .ok [] := by
  have hf : findMarker cfg.cmdMarkers msg.text = none := by
    unfold findMarker
    exact List.find?_eq_none.mpr (fun x hx => by simp [h x hx])
  unfold parse_message strippedCmd
  rw [hf]
  by_cases hb : msg.fromUsername = cfg.botName
  · rw [if_pos hb]
  · rw [if_neg hb]
    rfl

/-- Witness for `c6_no_marker_noop`: an unrelated chat line is ignored even
by a parser/entry point that would fail loudly. -/
theorem c6_no_marker_noop_witness :
    parse_message ⟨"hadroid", ["/bot ", "!bot "]⟩
      (fun a : List String => Except.ok a)
      (fun _ _ => Except.error (.other "boom"))
      ⟨"hello there", "alice", "room1"⟩ = .ok [] :=
  c6_no_marker_noop ⟨"hadroid", ["/bot ", "!bot "]⟩
    (fun a : List String => Except.ok a)
    (fun _ _ => Except.error (.other "boom"))
    ⟨"hello there", "alice", "room1"⟩ (by decide)

/-- **C7.** A message whose sender username equals (string equality) the
configured bot name is returned from `parse_message` immediately: no
marker recognition, no tokenization, no dispatch and no send, for every
text content and every `parse`/`main` behaviour. -/
theorem c7_self_authored_filtered {Args : Type} (cfg : Config)
    (parse : List String → Except PyExn Args)
    (main : Args → MsgJson → Except PyExn (List SendCall))
    (msg : MsgJson)
    (h : msg.fromUsername = cfg.botName) :
    parse_message cfg parse main msg = .ok [] := by
  unfold parse_message
  rw [if_pos h]

/-- Witness for `c7_self_authored_filtered`: even a perfectly-formed bot
command from the bot itself is dropped. -/
theorem c7_self_authored_filtered_witness :
    parse_message ⟨"hadroid", ["!bot "]⟩
      (fun a : List String => Except.ok a)
      (fun _ _ => Except.error (.other "boom"))
      ⟨"!bot menu today", "hadroid", "room1"⟩ = .ok [] :=
  c7_self_authored_filtered ⟨"hadroid", ["!bot "]⟩
    (fun a : List String => Except.ok a)
    (fun _ _ => Except.error (.other "boom"))
    ⟨"!bot menu today", "hadroid", "room1"⟩ rfl

/-- **C10.** A raw stream line of length at most one (empty line or a
single keep-alive byte) is skipped by the listener before any decoding:
the outcome is `skipped` for every decoder, JSON parser, configuration and
bot behaviour, so the line is never decoded, parsed or dispatched. -/
theorem c10_short_line_skipped {Args : Type} (cfg : Config)
    (parse : List String → Except PyExn Args)
    (main : Args → MsgJson → Except PyExn (List SendCall))
    (decodeLine : List Nat → Except PyExn String)
    (parseJson : String → Except PyExn MsgJson)
    (line : List Nat)
    (h : line.length ≤ 1) :
    processLine cfg parse main decodeLine parseJson line = .skipped := by
  unfold processLine
  rw [if_neg]
  rintro ⟨-, h2⟩
  omega

/-- Witness for `c10_short_line_skipped`: a one-byte keep-alive line is
skipped even though the decoder would hand back a dispatchable command. -/
theorem c10_short_line_skipped_witness :
    processLine ⟨"hadroid", ["!bot "]⟩
      (fun a : List String => Except.ok a)
      (fun _ _ => Except.error (.other "boom"))
      (fun _ => Except.ok "x")
      (fun _ => Except.ok ⟨"!bot menu", "alice", "room1"⟩)
      [10] = .skipped :=
  c10_short_line_skipped ⟨"hadroid", ["!bot "]⟩
    (fun a : List String => Except.ok a)
    (fun _ _ => Except.error (.other "boom"))
    (fun _ => Except.ok "x")
    (fun _ => Except.ok ⟨"!bot menu", "alice", "room1"⟩)
    [10] (by decide)

/-- **C5.** When grammar parsing of the tokenized command raises a usage
error (`DocoptExit`), both dispatchers send exactly one reply — the usage
message in a fenced code block — the entry point is never invoked (the
result is the same for any two entry-point behaviours `main`, `main2`),
and the usage error does not propagate (the result is `ok`). -/
theorem c5_usage_error_single_reply {Args : Type}
    (parse : List String → Except PyExn Args)
    (main main2 : Args → MsgJson → Except PyExn (List SendCall))
    (cmd : String) (msg : MsgJson) :
    (∀ (argv : List String) (u : String),
      streamTokenize cmd = .ok argv → parse argv = .error (.docoptExit u) →
      streamRespond parse main cmd msg = .ok [usageReply u] ∧
      streamRespond parse main2 cmd msg = .ok [usageReply u]) ∧
    (∀ u : String, parse (cronTokenize cmd) = .error (.docoptExit u) →
      cronRespond parse main cmd msg = .ok [usageReply u] ∧
      cronRespond parse main2 cmd msg = .ok [usageReply u]) := by
  constructor
  · intro argv u ht hp
    constructor <;> simp [streamRespond, ht, hp]
  · intro u hp
    constructor <;> simp [cronRespond, hp]

/-- Witness for `c5_usage_error_single_reply` on an unknown command. -/
theorem c5_usage_error_single_reply_witness :
    streamRespond
      (fun _ : List String =>
        (Except.error (PyExn.docoptExit "Usage: bot") : Except PyExn Unit))
      (fun _ _ => Except.ok []) "badcmd" ⟨"!bot badcmd", "alice", "room1"⟩ =
      .ok [usageReply "Usage: bot"] ∧
    cronRespond
      (fun _ : List String =>
        (Except.error (PyExn.docoptExit "Usage: bot") : Except PyExn Unit))
      (fun _ _ => Except.ok []) "badcmd" ⟨"!bot badcmd", "alice", "room1"⟩ =
      .ok [usageReply "Usage: bot"] :=
  have h := c5_usage_error_single_reply
    (fun _ : List String =>
      (Except.error (PyExn.docoptExit "Usage: bot") : Except PyExn Unit))
    (fun _ _ => Except.ok [])
    (fun _ _ => Except.error (.other "x"))
    "badcmd" ⟨"!bot badcmd", "alice", "room1"⟩
  ⟨(h.1 ["badcmd"] "Usage: bot" (by decide) rfl).1,
   (h.2 "Usage: bot" rfl).1⟩

/-- **C9.** The usage-error reply of the stream dispatcher is sent without
an explicit destination (`roomId = none`), so `GitterClient.send` resolves
it to the client's configured default room; the reply is identical for any
two originating events, hence independent of the event's room field. -/
theorem c9_usage_reply_default_room {Args : Type}
    (parse : List String → Except PyExn Args)
    (main : Args → MsgJson → Except PyExn (List SendCall))
    (cmd : String) (msg msg2 : MsgJson) (argv : List String) (u : String)
    (dflt : Option String)
    (ht : streamTokenize cmd = .ok argv)
    (hp : parse argv = .error (.docoptExit u)) :
    streamRespond parse main cmd msg = .ok [usageReply u] ∧
    (usageReply u).roomId = none ∧
    sendEffectiveRoom dflt (usageReply u).roomId = dflt ∧
    streamRespond parse main cmd msg2 = streamRespond parse main cmd msg := by
  refine ⟨?_, rfl, rfl, ?_⟩
  · simp [streamRespond, ht, hp]
  · simp [streamRespond, ht, hp]

/-- Witness for `c9_usage_reply_default_room`: the reply goes to the
default room whatever room the triggering events carry. -/
theorem c9_usage_reply_default_room_witness :
    streamRespond
      (fun _ : List String =>
        (Except.error (PyExn.docoptExit "Usage: bot") : Except PyExn Unit))
      (fun _ _ => Except.ok []) "badcmd" ⟨"!bot badcmd", "alice", "roomA"⟩ =
      .ok [usageReply "Usage: bot"] ∧
    (usageReply "Usage: bot").roomId = none ∧
    sendEffectiveRoom (some "defaultRoom") (usageReply "Usage: bot").roomId =
      some "defaultRoom" ∧
    streamRespond
      (fun _ : List String =>
        (Except.error (PyExn.docoptExit "Usage: bot") : Except PyExn Unit))
      (fun _ _ => Except.ok []) "badcmd" ⟨"!bot badcmd", "bob", "roomB"⟩ =
      streamRespond
        (fun _ : List String =>
          (Except.error (PyExn.docoptExit "Usage: bot") : Except PyExn Unit))
        (fun _ _ => Except.ok []) "badcmd" ⟨"!bot badcmd", "alice", "roomA"⟩ :=
  c9_usage_reply_default_room
    (fun _ : List String =>
      (Except.error (PyExn.docoptExit "Usage: bot") : Except PyExn Unit))
    (fun _ _ => Except.ok []) "badcmd"
    ⟨"!bot badcmd", "alice", "roomA"⟩ ⟨"!bot badcmd", "bob", "roomB"⟩
    ["badcmd"] "Usage: bot" (some "defaultRoom") (by decide) rfl

/-- **C2 (counterexample).** The claim says a non-usage-error failure of
the bot entry point terminates the current mode, including the
stream-listening loop.  With an entry point that raises a
`RuntimeError`-like exception, the error does propagate out of the
dispatching call (`streamRespond` yields it), but the per-line
`except Exception` handler of `StreamClient.listen` catches it: the line's
outcome is `caught` — print and continue — and the loop is not
terminated. -/
theorem c2_stream_loop_not_terminated :
    streamRespond (fun a : List String => Except.ok a)
      (fun _ _ => Except.error (.other "RuntimeError"))
      "help" ⟨"!bot help", "alice", "room1"⟩ =
      .error (.other "RuntimeError") ∧
    processLine ⟨"hadroid", ["!bot "]⟩
      (fun a : List String => Except.ok a)
      (fun _ _ => Except.error (.other "RuntimeError"))
      (fun _ => Except.ok "line")
      (fun _ => Except.ok ⟨"!bot help", "alice", "room1"⟩)
      [123, 34] = .caught (.other "RuntimeError") := by
  refine ⟨by decide, by decide⟩

/-- **C2 (amended).** A non-`DocoptExit` failure of the bot entry point is
not caught by either `respond`: it propagates out of the dispatching call
(terminating the cron mode, whose loop has no handler).  In stream mode,
however, the listener's per-line `except Exception` handler catches it,
reports it, and continues with the next line, so the stream-listening loop
is not terminated. -/
theorem c2_bot_error_propagation {Args : Type} (cfg : Config)
    (parse : List String → Except PyExn Args)
    (main : Args → MsgJson → Except PyExn (List SendCall))
    (msg : MsgJson) (cmd : String) (argv : List String) (args : Args)
    (em : String)
    (hu : msg.fromUsername ≠ cfg.botName)
    (hs : strippedCmd cfg.cmdMarkers msg.text = some cmd)
    (ht : streamTokenize cmd = .ok argv)
    (hp : parse argv = .ok args)
    (hb : main args msg = .error (.other em)) :
    streamRespond parse main cmd msg = .error (.other em) ∧
    parse_message cfg parse main msg = .error (.other em) ∧
    (∀ (decodeLine : List Nat → Except PyExn String)
       (parseJson : String → Except PyExn MsgJson)
       (line : List Nat) (s : String),
       line ≠ [] → 1 < line.length →
       decodeLine line = .ok s → parseJson s = .ok msg →
       processLine cfg parse main decodeLine parseJson line =
         .caught (.other em)) ∧
    (∀ (cmd2 : String) (args2 : Args),
       parse (cronTokenize cmd2) = .ok args2 →
       main args2 msg = .error (.other em) →
       cronRespond parse main cmd2 msg = .error (.other em)) := by
  have h1 : streamRespond parse main cmd msg = .error (.other em) := by
    simp [streamRespond, ht, hp, hb]
  have h2 : parse_message cfg parse main msg = .error (.other em) := by
    unfold parse_message
    rw [if_neg hu, hs]
    exact h1
  refine ⟨h1, h2, ?_, ?_⟩
  · intro decodeLine parseJson line s hne hlen hdec hjson
    simp [processLine, hne, hlen, hdec, hjson, h2]
  · intro cmd2 args2 hp2 hb2
    simp [cronRespond, hp2, hb2]

/-- Witness for `c2_bot_error_propagation`. -/
theorem c2_bot_error_propagation_witness :
    streamRespond (fun a : List String => Except.ok a)
      (fun _ _ => Except.error (.other "boom"))
      "help" ⟨"!bot help", "alice", "room1"⟩ = .error (.other "boom") ∧
    processLine ⟨"hadroid", ["!bot "]⟩
      (fun a : List String => Except.ok a)
      (fun _ _ => Except.error (.other "boom"))
      (fun _ => Except.ok "line")
      (fun _ => Except.ok ⟨"!bot help", "alice", "room1"⟩)
      [123, 34] = .caught (.other "boom") :=
  have h := c2_bot_error_propagation ⟨"hadroid", ["!bot "]⟩
    (fun a : List String => Except.ok a)
    (fun _ _ => Except.error (.other "boom"))
    ⟨"!bot help", "alice", "room1"⟩ "help" ["help"] ["help"] "boom"
    (by decide) (by decide) (by decide) rfl rfl
  ⟨h.1, h.2.2.1 (fun _ => Except.ok "line")
    (fun _ => Except.ok ⟨"!bot help", "alice", "room1"⟩)
    [123, 34] "line" (by decide) (by decide) rfl rfl⟩
